import Mathlib

/-!
Verification development for the py-lists backend (field-type system,
list repository, persistence and migration).

The Python source is shallowly embedded:

* pydantic models become Lean structures / inductives;
* Python dictionaries become association lists that keep insertion order
  (keys are unique in every state the program builds);
* UUID identifiers are modelled as natural numbers;
* fallible code returns `Except PyErr`;
* every repository operation returns, besides its Python return value, the
  resulting in-memory store and the list of documents it wrote to disk, so
  that "nothing was mutated / written" is expressible.

A central fact about the source: the pydantic model `FieldType`
(src/app/field_types.py, class FieldType) declares only `name` (plus the
`type` discriminator and `multiline` on subclasses) and does NOT declare an
`order` attribute.  Under pydantic v2 (which this code imports:
`Discriminator`, `model_validate_json`), assigning an undeclared attribute
on a BaseModel raises `ValueError(""<Class>" object has no field "<attr>"")`
and reading one raises `AttributeError`.  The repository code
(src/app/repositories.py) reads and assigns `field.order` in `add_field`,
`reorder_fields` and `move_field`; those statements are embedded as the
errors pydantic raises at them.
-/

/-- Python runtime value of type `FieldValueType = str | bool | int`. -/
inductive Value where
  | str (s : String)
  | bool (b : Bool)
  | int (n : Int)
deriving DecidableEq

/-- Python exceptions raised by the embedded code, by class. -/
inductive PyErr where
  | valueError (msg : String)
  | attributeError (msg : String)
  | keyError (msg : String)
  | indexError (msg : String)
  | typeError (msg : String)
deriving DecidableEq

/-- Python `isinstance(value, str)` on a `FieldValueType` value. -/
def isStrInstance : Value → Bool
  | .str _ => true
  | _ => false

/-- Python `isinstance(value, bool)` on a `FieldValueType` value. -/
def isBoolInstance : Value → Bool
  | .bool _ => true
  | _ => false

/-- Python `isinstance(value, int)` on a `FieldValueType` value.
Python booleans are instances of `int`, so `.bool` values pass this check. -/
def isIntInstance : Value → Bool
  | .int _ => true
  | .bool _ => true
  | .str _ => false

/-- The string payload of a value; only used after an `isinstance(_, str)` check. -/
def Value.asStr : Value → String
  | .str s => s
  | _ => ""

/-- The integer payload of a value; only used after an `isinstance(_, int)`
check.  Python treats `True`/`False` as `1`/`0` in integer comparisons. -/
def Value.asInt : Value → Int
  | .int n => n
  | .bool b => if b then 1 else 0
  | .str _ => 0

/-- Python `f"Field {field_id}" if field_id else "Field"`: an absent id and
an empty string are both falsy. -/
def fieldRef : Option String → String
  | none => "Field"
  | some s => if s = "" then "Field" else "Field " ++ s

/-- Characters stripped by Python `str.strip()` (the `str.isspace` set:
ASCII whitespace, the C0 separators and the Unicode space characters). -/
def pyIsSpace (c : Char) : Bool :=
  c ∈ [' ', '\t', '\n', '\r', '\x0b', '\x0c',
       '\x1c', '\x1d', '\x1e', '\x1f', '\u0085', '\u00a0', '\u1680',
       '\u2000', '\u2001', '\u2002', '\u2003', '\u2004', '\u2005',
       '\u2006', '\u2007', '\u2008', '\u2009', '\u200a',
       '\u2028', '\u2029', '\u202f', '\u205f', '\u3000']

/-- Python `value.strip()`: drop leading and trailing whitespace. -/
def pyStrip (s : String) : String :=
  ⟨((s.toList.dropWhile pyIsSpace).reverse.dropWhile pyIsSpace).reverse⟩

/-- Tail of the URL regex: `[^\x5cs]*$`.  The star cannot consume whitespace
and Python `$` also matches just before one final newline, so the remainder
must be whitespace-free after removing one optional trailing newline. -/
def urlTailMatches (u : List Char) : Bool :=
  match u.getLast? with
  | some c => if c = '\n' then u.dropLast.all (fun d => pyIsSpace d = false)
              else u.all (fun d => pyIsSpace d = false)
  | none => true

/-- Python `re.match(r"^https?://[^\x5cs/$.?#].[^\x5cs]*$", value, re.IGNORECASE)`
as a Boolean.  The scheme is matched case-insensitively; then one character
that is neither whitespace nor `/ $ . ? #`, one character other than a
newline (`.`), and a whitespace-free tail. -/
def urlPatternMatches (s : String) : Bool :=
  let low := s.toLower
  let cs := s.toList
  let rest : Option (List Char) :=
    if low.startsWith "https://" then some (cs.drop 8)
    else if low.startsWith "http://" then some (cs.drop 7)
    else none
  match rest with
  | none => false
  | some (c1 :: c2 :: u) =>
      (pyIsSpace c1 = false : Bool) &&
      !(['/', '$', '.', '?', '#'].contains c1) &&
      !(c2 = '\n') &&
      urlTailMatches u
  | some _ => false

/-- Field models of the discriminated union `FieldTypeUnion`
(BooleanFieldType | TextFieldType | NumberFieldType | URLFieldType |
ImageFieldType).  Each carries its declared pydantic fields: `name`, and
`multiline` for text.  NO `order` field is declared in the source. -/
inductive FieldT where
  | boolean (name : String)
  | text (name : String) (multiline : Bool)
  | number (name : String)
  | url (name : String)
  | image (name : String)
deriving DecidableEq

/-- The `type` discriminator literal of a field model. -/
def FieldT.typeName : FieldT → String
  | .boolean _ => "boolean"
  | .text _ _ => "text"
  | .number _ => "number"
  | .url _ => "url"
  | .image _ => "image"

/-- Python class name of a field model, used in pydantic error messages. -/
def FieldT.className : FieldT → String
  | .boolean _ => "BooleanFieldType"
  | .text _ _ => "TextFieldType"
  | .number _ => "NumberFieldType"
  | .url _ => "URLFieldType"
  | .image _ => "ImageFieldType"

/-- Creation schemas of the union `FieldTypeCreateUnion`. -/
inductive FieldCreate where
  | boolean (name : String)
  | text (name : String) (multiline : Bool)
  | number (name : String)
  | url (name : String)
  | image (name : String)
deriving DecidableEq

/-- BooleanFieldHandler.get_default_value. -/
def BooleanFieldHandler.get_default_value : Value := .bool false

/-- BooleanFieldHandler.validate_value. -/
def BooleanFieldHandler.validate_value (value : Value) (field_id : Option String) :
    Except PyErr Unit :=
  if isBoolInstance value then .ok ()
  else .error (.valueError (fieldRef field_id ++ " expects a boolean value"))

/-- TextFieldHandler instance state: the optional validation rules passed to
its constructor.  The compiled regex is modelled by its matching function
(the truthiness of `re.match(pattern, value)`). -/
structure TextFieldHandler where
  min_length : Option Int := none
  max_length : Option Int := none
  pattern : Option (String → Bool) := none

/-- TextFieldHandler.get_default_value. -/
def TextFieldHandler.get_default_value (_h : TextFieldHandler) : Value := .str ""

/-- Pattern check of TextFieldHandler.validate_value
(`if not re.match(self.pattern, value): raise`). -/
def TextFieldHandler.checkPattern (h : TextFieldHandler) (ref : String) (s : String) :
    Except PyErr Unit :=
  match h.pattern with
  | some p =>
      if p s = false then .error (.valueError (ref ++ " must match pattern"))
      else .ok ()
  | none => .ok ()

/-- Maximum-length check of TextFieldHandler.validate_value. -/
def TextFieldHandler.checkMax (h : TextFieldHandler) (ref : String) (s : String) :
    Except PyErr Unit :=
  match h.max_length with
  | some m =>
      if m < (s.length : Int) then
        .error (.valueError (ref ++ " must be at most " ++ toString m ++ " characters long"))
      else TextFieldHandler.checkPattern h ref s
  | none => TextFieldHandler.checkPattern h ref s

/-- TextFieldHandler.validate_value: type check, then min length, max length
and pattern, raising at the first violated rule. -/
def TextFieldHandler.validate_value (h : TextFieldHandler) (value : Value)
    (field_id : Option String) : Except PyErr Unit :=
  let ref := fieldRef field_id
  if isStrInstance value = false then
    .error (.valueError (ref ++ " expects a string value"))
  else
    let s := value.asStr
    match h.min_length with
    | some m =>
        if (s.length : Int) < m then
          .error (.valueError (ref ++ " must be at least " ++ toString m ++ " characters long"))
        else TextFieldHandler.checkMax h ref s
    | none => TextFieldHandler.checkMax h ref s

/-- NumberFieldHandler instance state: optional bounds from its constructor. -/
structure NumberFieldHandler where
  min_value : Option Int := none
  max_value : Option Int := none
deriving DecidableEq

/-- NumberFieldHandler.get_default_value: the configured minimum when it is
set and positive, else 0. -/
def NumberFieldHandler.get_default_value (h : NumberFieldHandler) : Value :=
  match h.min_value with
  | some m => if 0 < m then .int m else .int 0
  | none => .int 0

/-- Integer form of the number handler's default value. -/
def NumberFieldHandler.defaultInt (h : NumberFieldHandler) : Int :=
  match h.min_value with
  | some m => if 0 < m then m else 0
  | none => 0

/-- Maximum check of NumberFieldHandler.validate_value. -/
def NumberFieldHandler.checkMax (h : NumberFieldHandler) (ref : String) (n : Int) :
    Except PyErr Unit :=
  match h.max_value with
  | some m =>
      if m < n then .error (.valueError (ref ++ " must be at most " ++ toString m))
      else .ok ()
  | none => .ok ()

/-- NumberFieldHandler.validate_value: `isinstance(value, int)` (booleans
pass, being Python ints), then the optional bounds. -/
def NumberFieldHandler.validate_value (h : NumberFieldHandler) (value : Value)
    (field_id : Option String) : Except PyErr Unit :=
  let ref := fieldRef field_id
  if isIntInstance value = false then
    .error (.valueError (ref ++ " expects a number value"))
  else
    let n := value.asInt
    match h.min_value with
    | some m =>
        if n < m then .error (.valueError (ref ++ " must be at least " ++ toString m))
        else NumberFieldHandler.checkMax h ref n
    | none => NumberFieldHandler.checkMax h ref n

/-- URLFieldHandler.get_default_value. -/
def URLFieldHandler.get_default_value : Value := .str ""

/-- URLFieldHandler.validate_value: type check; values that strip to the
empty string are accepted unconditionally; otherwise the value must start
with http:// or https:// (case-insensitively) and match the URL regex. -/
def URLFieldHandler.validate_value (value : Value) (field_id : Option String) :
    Except PyErr Unit :=
  let ref := fieldRef field_id
  if isStrInstance value = false then
    .error (.valueError (ref ++ " expects a string value"))
  else
    let s := value.asStr
    if pyStrip s = "" then .ok ()
    else if (s.toLower.startsWith "http://" || s.toLower.startsWith "https://") = false then
      .error (.valueError (ref ++ " must start with http:// or https://"))
    else if urlPatternMatches s = false then
      .error (.valueError (ref ++ " must be a valid URL starting with http:// or https://"))
    else .ok ()

/-- ImageFieldHandler.get_default_value. -/
def ImageFieldHandler.get_default_value : Value := .str ""

/-- ImageFieldHandler.validate_value: the source duplicates character for
character the body of URLFieldHandler.validate_value. -/
def ImageFieldHandler.validate_value (value : Value) (field_id : Option String) :
    Except PyErr Unit :=
  let ref := fieldRef field_id
  if isStrInstance value = false then
    .error (.valueError (ref ++ " expects a string value"))
  else
    let s := value.asStr
    if pyStrip s = "" then .ok ()
    else if (s.toLower.startsWith "http://" || s.toLower.startsWith "https://") = false then
      .error (.valueError (ref ++ " must start with http:// or https://"))
    else if urlPatternMatches s = false then
      .error (.valueError (ref ++ " must be a valid URL starting with http:// or https://"))
    else .ok ()

/-- The FieldHandlerRegistry as built once at startup by
`deps.get_field_registry`: the five built-in handlers, each registered
exactly once under its `type_name`.  Boolean, URL and Image handlers carry
no state; Text and Number carry their constructor configuration. -/
structure FieldHandlerRegistry where
  textHandler : TextFieldHandler
  numberHandler : NumberFieldHandler

/-- Registry.get_default_value: dispatch on the field's `type` discriminator
to the registered handler's get_default_value. -/
def FieldHandlerRegistry.get_default_value (reg : FieldHandlerRegistry) :
    FieldT → Value
  | .boolean _ => BooleanFieldHandler.get_default_value
  | .text _ _ => TextFieldHandler.get_default_value reg.textHandler
  | .number _ => NumberFieldHandler.get_default_value reg.numberHandler
  | .url _ => URLFieldHandler.get_default_value
  | .image _ => ImageFieldHandler.get_default_value

/-- Registry.validate_value: dispatch on the field's `type` discriminator to
the registered handler's validate_value. -/
def FieldHandlerRegistry.validate_value (reg : FieldHandlerRegistry) (field : FieldT)
    (value : Value) (field_id : Option String) : Except PyErr Unit :=
  match field with
  | .boolean _ => BooleanFieldHandler.validate_value value field_id
  | .text _ _ => TextFieldHandler.validate_value reg.textHandler value field_id
  | .number _ => NumberFieldHandler.validate_value reg.numberHandler value field_id
  | .url _ => URLFieldHandler.validate_value value field_id
  | .image _ => ImageFieldHandler.validate_value value field_id

/-- Registry.create_field_instance: each handler builds its field model from
the creation schema of the matching kind, copying name (and multiline for
text).  No identifier and no order is assigned here. -/
def FieldHandlerRegistry.create_field_instance : FieldCreate → FieldT
  | .boolean n => .boolean n
  | .text n m => .text n m
  | .number n => .number n
  | .url n => .url n
  | .image n => .image n

/-- Identifiers (Python UUIDs) are modelled as natural numbers. -/
abbrev UUID := Nat

/-- Python `d.get(k)` on an (insertion-ordered) dictionary. -/
def dictGet {α : Type} (d : List (UUID × α)) (k : UUID) : Option α :=
  (d.find? (fun p => p.1 == k)).map (fun p => p.2)

/-- Python `d.keys()` in iteration order. -/
def dictKeys {α : Type} (d : List (UUID × α)) : List UUID := d.map (fun p => p.1)

/-- Python `d[k] = v`: replace in place when the key exists, else append. -/
def dictSet {α : Type} : List (UUID × α) → UUID → α → List (UUID × α)
  | [], k, v => [(k, v)]
  | p :: rest, k, v => if p.1 == k then (k, v) :: rest else p :: dictSet rest k v

/-- Python `del d[k]`.  Dictionary keys are unique, so removing the single
entry is the same as dropping every pair with that key. -/
def dictDel {α : Type} (d : List (UUID × α)) (k : UUID) : List (UUID × α) :=
  d.filter (fun p => !(p.1 == k))

/-- Python `k in d`. -/
def dictContains {α : Type} (d : List (UUID × α)) (k : UUID) : Bool :=
  (dictGet d k).isSome

/-- Python `set(a) == set(b)` for key views. -/
def sameSet (a b : List UUID) : Bool :=
  a.all (fun x => b.contains x) && b.all (fun x => a.contains x)

/-- Python `len(orders) != len(set(orders))`, the duplicate-order condition
reorder_fields documents.  At runtime the line computing `orders` raises
before this comparison (see reorder_fields); the definition states the
condition itself. -/
def hasDuplicates (xs : List Int) : Bool := !(xs.eraseDups.length == xs.length)

/-- models.FieldValue: a (field identifier, value) pair attached to an item. -/
structure FieldValue where
  field_id : UUID
  value : Value
deriving DecidableEq

/-- models.List: identifier, name, fields dictionary and items dictionary
(item id to its FieldValue sequence), all in insertion order. -/
structure PyList where
  id : UUID
  name : String
  fields : List (UUID × FieldT)
  items : List (UUID × List FieldValue)
deriving DecidableEq

deriving instance DecidableEq for Except

/-- Outcome of one repository operation: the Python return value or raised
exception, the in-memory store afterwards, and the List documents passed to
PersistenceManager.write_to_disk during the call (in order). -/
structure OpResult where
  res : Except PyErr (Option PyList)
  store : List (UUID × PyList)
  writes : List PyList
deriving DecidableEq

/-- The ValueError pydantic v2 raises for `field.order = ...` when the model
declares no field named order:
`"<Class>" object has no field "order"`. -/
def pydanticNoSetattr (f : FieldT) : PyErr :=
  .valueError ("\"" ++ FieldT.className f ++ "\" object has no field \"order\"")

/-- The AttributeError pydantic v2 raises for reading `field.order` when the
model declares no such field (Python quotes around the names elided). -/
def pydanticNoGetattr (f : FieldT) : PyErr :=
  .attributeError (FieldT.className f ++ " object has no attribute order")

/-- ListRepository.add_field.  After the not-found check the code computes
`next_order = max((f.order for f in list.fields.values()), default=-1) + 1`:
with at least one existing field this reads the undeclared `order` attribute
of the first field and raises AttributeError; with no fields it proceeds to
`field = registry.create_field_instance(...)` and then `field.order =
next_order`, which raises ValueError.  Either way the call raises before the
field is inserted, before items are backfilled and before any write. -/
def ListRepository.add_field (store : List (UUID × PyList)) (list_id : UUID)
    (field_create : FieldCreate) (_fresh_field_id : UUID) : OpResult :=
  match dictGet store list_id with
  | none => ⟨.ok none, store, []⟩
  | some l =>
    match l.fields with
    | [] =>
        ⟨.error (pydanticNoSetattr (FieldHandlerRegistry.create_field_instance field_create)),
          store, []⟩
    | p :: _ => ⟨.error (pydanticNoGetattr p.2), store, []⟩

/-- ListRepository.delete_field: not-found when the list or the field is
absent; otherwise remove the field, strip its FieldValue from every item's
sequence, write the list and return it. -/
def ListRepository.delete_field (store : List (UUID × PyList)) (list_id field_id : UUID) :
    OpResult :=
  match dictGet store list_id with
  | none => ⟨.ok none, store, []⟩
  | some l =>
    if dictContains l.fields field_id = false then ⟨.ok none, store, []⟩
    else
      let l2 : PyList :=
        { l with
          fields := dictDel l.fields field_id,
          items := l.items.map
            (fun it => (it.1, it.2.filter (fun fv => !(fv.field_id == field_id)))) }
      ⟨.ok (some l2), dictSet store list_id l2, [l2]⟩

/-- ListRepository.reorder_fields.  After the not-found check the local name
`list` is rebound to the pydantic List instance (`list = self.get(list_id)`),
shadowing the builtin.  The key-set check runs first and raises its
ValueError when the mapping does not cover exactly the field-id set.  Once
it passes, `orders = list(field_orders.values())` calls that List instance
and raises TypeError (Python message quotes around List elided) — on every
such call, a zero-field list included.  The duplicate-order check, the order
assignments, the renormalization and the write are unreachable. -/
def ListRepository.reorder_fields (store : List (UUID × PyList)) (list_id : UUID)
    (field_orders : List (UUID × Int)) : OpResult :=
  match dictGet store list_id with
  | none => ⟨.ok none, store, []⟩
  | some l =>
    if sameSet (dictKeys field_orders) (dictKeys l.fields) = false then
      ⟨.error (.valueError "Must provide orders for all fields"), store, []⟩
    else
      ⟨.error (.typeError "List object is not callable"), store, []⟩

/-- ListRepository.move_field: the direction check precedes everything
(message quotes elided); then not-found when the list or the field is
absent; then `sorted(list.fields.items(), key=lambda x: x[1].order)`
evaluates the key on the first entry and raises AttributeError, before the
first/last checks and before any write. -/
def ListRepository.move_field (store : List (UUID × PyList)) (list_id field_id : UUID)
    (direction : String) : OpResult :=
  if (direction == "up" || direction == "down") = false then
    ⟨.error (.valueError "Direction must be up or down"), store, []⟩
  else
    match dictGet store list_id with
    | none => ⟨.ok none, store, []⟩
    | some l =>
      if dictContains l.fields field_id = false then ⟨.ok none, store, []⟩
      else
        match l.fields with
        | [] => ⟨.error (.keyError "unreachable: field_id is a key of fields"), store, []⟩
        | p :: _ => ⟨.error (pydanticNoGetattr p.2), store, []⟩

/-- Per-entry loop of ListRepository._validate_field_values: look the field
up, delegate to the registry's handler with `str(field_id)` for messages,
stop at the first raised error. -/
def ListRepository.validateItemLoop (reg : FieldHandlerRegistry) (l : PyList) :
    List (UUID × Value) → Except PyErr Unit
  | [] => .ok ()
  | p :: rest =>
    match dictGet l.fields p.1 with
    | none => .error (.valueError ("Field " ++ toString p.1 ++ " does not exist"))
    | some f =>
      match FieldHandlerRegistry.validate_value reg f p.2 (some (toString p.1)) with
      | .error e => .error e
      | .ok _ => ListRepository.validateItemLoop reg l rest

/-- ListRepository._validate_field_values: the supplied key set must equal
the list's field-id set, then every value is validated by its handler. -/
def ListRepository.validate_field_values (reg : FieldHandlerRegistry) (l : PyList)
    (field_values : List (UUID × Value)) : Except PyErr Unit :=
  if sameSet (dictKeys field_values) (dictKeys l.fields) = false then
    .error (.valueError "Must provide values for all fields")
  else ListRepository.validateItemLoop reg l field_values

/-- ListRepository.add_item: not-found check, validation, then build the
FieldValue sequence, store it under a fresh item id and write the list. -/
def ListRepository.add_item (reg : FieldHandlerRegistry) (store : List (UUID × PyList))
    (list_id : UUID) (field_values : List (UUID × Value)) (fresh_item_id : UUID) :
    OpResult :=
  match dictGet store list_id with
  | none => ⟨.ok none, store, []⟩
  | some l =>
    match ListRepository.validate_field_values reg l field_values with
    | .error e => ⟨.error e, store, []⟩
    | .ok _ =>
      let values := field_values.map (fun p => FieldValue.mk p.1 p.2)
      let l2 : PyList := { l with items := dictSet l.items fresh_item_id values }
      ⟨.ok (some l2), dictSet store list_id l2, [l2]⟩

/-- True when an operation returned an updated list (no exception, not a
not-found sentinel). -/
def opSucceeded (o : OpResult) : Bool :=
  match o.res with
  | .ok (some _) => true
  | _ => false

/-- Serialized form of one field inside a list document, as the JSON shape
relevant here: declared keys plus the optional `order` key that migration 0
writes into raw documents. -/
structure RawFieldDoc where
  name : String
  type : String
  multiline : Option Bool
  order : Option Int
deriving DecidableEq

/-- pydantic `model_dump` of a field model, as used by
PersistenceManager.write_to_disk via `list.model_dump_json`: only declared
model fields are emitted, so no `order` key is ever written. -/
def FieldT.model_dump : FieldT → RawFieldDoc
  | .boolean n => ⟨n, "boolean", none, none⟩
  | .text n m => ⟨n, "text", some m, none⟩
  | .number n => ⟨n, "number", none, none⟩
  | .url n => ⟨n, "url", none, none⟩
  | .image n => ⟨n, "image", none, none⟩

/-- pydantic validation of a field document, as used by
PersistenceManager.load_all via `List.model_validate_json`: dispatch on the
`type` discriminator; `multiline` defaults to false; keys not declared on
the model — in particular `order` — are ignored (extra keys are ignored by
default); an unknown discriminator fails validation. -/
def FieldT.model_validate (d : RawFieldDoc) : Option FieldT :=
  if d.type = "boolean" then some (.boolean d.name)
  else if d.type = "text" then some (.text d.name (d.multiline.getD false))
  else if d.type = "number" then some (.number d.name)
  else if d.type = "url" then some (.url d.name)
  else if d.type = "image" then some (.image d.name)
  else none

/-- Python `range(lo, hi)` over integers, by length. -/
def intRangeGo : Nat → Int → List Int
  | 0, _ => []
  | Nat.succ n, lo => lo :: intRangeGo n (lo + 1)

/-- Python `range(lo, hi)` over integers. -/
def intRange (lo hi : Int) : List Int := intRangeGo (hi - lo).toNat lo

/-- Python list indexing `xs[i]`: negative indices count from the end,
anything out of range raises IndexError. -/
def pyListGet {α : Type} (xs : List α) (i : Int) : Except PyErr α :=
  let j := if i < 0 then (xs.length : Int) + i else i
  if h : 0 ≤ j ∧ j < (xs.length : Int) then
    .ok (xs.get ⟨j.toNat, by omega⟩)
  else .error (.indexError "list index out of range")

/-- `self.migrations[idx]()`: look the step up (inside the try block, so an
IndexError propagates like a step failure) and run it on the raw store. -/
def stepApply {σ : Type} (migs : List (σ → Except PyErr σ)) (idx : Int) (st : σ) :
    Except PyErr σ :=
  match pyListGet migs idx with
  | .error e => .error e
  | .ok f => f st

/-- Outcome of DataMigrator.run: the return or raised error, the cursor
value last persisted by _save_migration_state (initially the loaded one),
the final raw store, and the indices of the steps that ran to completion,
in execution order. -/
structure RunOut (σ : Type) where
  res : Except PyErr Unit
  cursor : Int
  store : σ
  trace : List Int

/-- The migration loop: for each pending index, run the step; on failure the
error propagates and the cursor keeps its previous value; on success
_save_migration_state persists the index before the next iteration. -/
def DataMigrator.runLoop {σ : Type} (migs : List (σ → Except PyErr σ)) :
    List Int → Int → σ → RunOut σ
  | [], cursor, st => ⟨.ok (), cursor, st, []⟩
  | idx :: rest, cursor, st =>
    match stepApply migs idx st with
    | .error e => ⟨.error e, cursor, st, []⟩
    | .ok st2 =>
      let o := DataMigrator.runLoop migs rest idx st2
      ⟨o.res, o.cursor, o.store, idx :: o.trace⟩

/-- DataMigrator.run: iterate `range(last_migration + 1, len(migrations))`
starting from the loaded cursor (`-1` when no state was persisted). -/
def DataMigrator.run {σ : Type} (migs : List (σ → Except PyErr σ))
    (last_migration : Int) (st : σ) : RunOut σ :=
  DataMigrator.runLoop migs (intRange (last_migration + 1) (migs.length : Int))
    last_migration st

/-! ## Theorems -/

theorem boolean_validate_error_valueError (value : Value)
    (field_id : Option String) (e : PyErr)
    (h : BooleanFieldHandler.validate_value value field_id = .error e) :
    ∃ m, e = PyErr.valueError m := by
  unfold BooleanFieldHandler.validate_value at h
  split at h
  · exact Except.noConfusion h
  · exact ⟨_, (Except.error.inj h).symm⟩

theorem text_checkPattern_error_valueError (th : TextFieldHandler)
    (ref s : String) (e : PyErr)
    (h : TextFieldHandler.checkPattern th ref s = .error e) :
    ∃ m, e = PyErr.valueError m := by
  unfold TextFieldHandler.checkPattern at h
  split at h
  · split at h
    · exact ⟨_, (Except.error.inj h).symm⟩
    · exact Except.noConfusion h
  · exact Except.noConfusion h

theorem text_checkMax_error_valueError (th : TextFieldHandler)
    (ref s : String) (e : PyErr)
    (h : TextFieldHandler.checkMax th ref s = .error e) :
    ∃ m, e = PyErr.valueError m := by
  unfold TextFieldHandler.checkMax at h
  split at h
  · split at h
    · exact ⟨_, (Except.error.inj h).symm⟩
    · exact text_checkPattern_error_valueError th ref s e h
  · exact text_checkPattern_error_valueError th ref s e h

theorem text_validate_error_valueError (th : TextFieldHandler)
    (value : Value) (field_id : Option String) (e : PyErr)
    (h : TextFieldHandler.validate_value th value field_id = .error e) :
    ∃ m, e = PyErr.valueError m := by
  simp only [TextFieldHandler.validate_value] at h
  split at h
  · exact ⟨_, (Except.error.inj h).symm⟩
  · split at h
    · split at h
      · exact ⟨_, (Except.error.inj h).symm⟩
      · exact text_checkMax_error_valueError th _ _ e h
    · exact text_checkMax_error_valueError th _ _ e h

theorem number_checkMax_error_valueError (nh : NumberFieldHandler)
    (ref : String) (n : Int) (e : PyErr)
    (h : NumberFieldHandler.checkMax nh ref n = .error e) :
    ∃ m, e = PyErr.valueError m := by
  unfold NumberFieldHandler.checkMax at h
  split at h
  · split at h
    · exact ⟨_, (Except.error.inj h).symm⟩
    · exact Except.noConfusion h
  · exact Except.noConfusion h

theorem number_validate_error_valueError (nh : NumberFieldHandler)
    (value : Value) (field_id : Option String) (e : PyErr)
    (h : NumberFieldHandler.validate_value nh value field_id = .error e) :
    ∃ m, e = PyErr.valueError m := by
  simp only [NumberFieldHandler.validate_value] at h
  split at h
  · exact ⟨_, (Except.error.inj h).symm⟩
  · split at h
    · split at h
      · exact ⟨_, (Except.error.inj h).symm⟩
      · exact number_checkMax_error_valueError nh _ _ e h
    · exact number_checkMax_error_valueError nh _ _ e h

theorem url_validate_error_valueError (value : Value)
    (field_id : Option String) (e : PyErr)
    (h : URLFieldHandler.validate_value value field_id = .error e) :
    ∃ m, e = PyErr.valueError m := by
  simp only [URLFieldHandler.validate_value] at h
  split at h
  · exact ⟨_, (Except.error.inj h).symm⟩
  · split at h
    · exact Except.noConfusion h
    · split at h
      · exact ⟨_, (Except.error.inj h).symm⟩
      · split at h
        · exact ⟨_, (Except.error.inj h).symm⟩
        · exact Except.noConfusion h

theorem image_validate_error_valueError (value : Value)
    (field_id : Option String) (e : PyErr)
    (h : ImageFieldHandler.validate_value value field_id = .error e) :
    ∃ m, e = PyErr.valueError m := by
  simp only [ImageFieldHandler.validate_value] at h
  split at h
  · exact ⟨_, (Except.error.inj h).symm⟩
  · split at h
    · exact Except.noConfusion h
    · split at h
      · exact ⟨_, (Except.error.inj h).symm⟩
      · split at h
        · exact ⟨_, (Except.error.inj h).symm⟩
        · exact Except.noConfusion h

theorem registry_validate_error_valueError (reg : FieldHandlerRegistry)
    (f : FieldT) (value : Value) (field_id : Option String) (e : PyErr)
    (h : FieldHandlerRegistry.validate_value reg f value field_id = .error e) :
    ∃ m, e = PyErr.valueError m := by
  cases f with
  | boolean n => exact boolean_validate_error_valueError value field_id e h
  | text n m => exact text_validate_error_valueError reg.textHandler value field_id e h
  | number n => exact number_validate_error_valueError reg.numberHandler value field_id e h
  | url n => exact url_validate_error_valueError value field_id e h
  | image n => exact image_validate_error_valueError value field_id e h

theorem sameSet_mem (a b : List UUID) (h : sameSet a b = true) {x : UUID} (hx : x ∈ a) :
    x ∈ b := by
  unfold sameSet at h
  have h1 := (Bool.and_eq_true _ _).mp h |>.1
  rw [List.all_eq_true] at h1
  exact List.elem_iff.mp (h1 x hx)

theorem exists_dictGet_of_mem_keys {α : Type} (d : List (UUID × α)) (k : UUID)
    (h : k ∈ dictKeys d) : ∃ x, dictGet d k = some x := by
  unfold dictGet
  have hs : (d.find? (fun p => p.1 == k)).isSome := by
    rw [List.find?_isSome]
    obtain ⟨p, hp, hpk⟩ := List.mem_map.mp h
    exact ⟨p, hp, by simp [hpk]⟩
  obtain ⟨p, hp⟩ := Option.isSome_iff_exists.mp hs
  exact ⟨p.2, by rw [hp]; rfl⟩

theorem NumberFieldHandler.get_default_eq_defaultInt (nh : NumberFieldHandler) :
    NumberFieldHandler.get_default_value nh = Value.int (NumberFieldHandler.defaultInt nh) := by
  unfold NumberFieldHandler.get_default_value NumberFieldHandler.defaultInt
  cases nh.min_value with
  | none => rfl
  | some m => rw [apply_ite Value.int]

/-- Claim C9 counterexample: the claim quantifies over every handler
configuration, but a Text handler with min_length 1 (or max_length -1), and
a Number handler with max_value -1, each reject their own default value. -/
theorem defaults_not_always_valid :
    TextFieldHandler.validate_value ⟨some 1, none, none⟩
        (TextFieldHandler.get_default_value ⟨some 1, none, none⟩) none
      = Except.error (PyErr.valueError "Field must be at least 1 characters long")
    ∧ TextFieldHandler.validate_value ⟨none, some (-1), none⟩
        (TextFieldHandler.get_default_value ⟨none, some (-1), none⟩) none
      = Except.error (PyErr.valueError "Field must be at most -1 characters long")
    ∧ NumberFieldHandler.validate_value ⟨none, some (-1)⟩
        (NumberFieldHandler.get_default_value ⟨none, some (-1)⟩) none
      = Except.error (PyErr.valueError "Field must be at most -1") := by
  refine ⟨?_, ?_, ?_⟩ <;> rfl

/-- Claim C9 (amended): validate(default_value()) succeeds for the Boolean,
URL and Image handlers under every configuration, and for the Text and
Number handlers under every configuration whose constraints do not exclude
the default (Text: no positive min_length, no negative max_length, any
configured pattern matches the empty string; Number: no max_value below the
default); the Number default is the configured minimum when that minimum is
positive and 0 otherwise, and the other defaults are the type's zero value
(false or the empty string). -/
theorem defaults_valid_under_admissible_config
    (th : TextFieldHandler) (nh : NumberFieldHandler) (field_id : Option String)
    (hminlen : ∀ m, th.min_length = some m → m ≤ 0)
    (hmaxlen : ∀ m, th.max_length = some m → 0 ≤ m)
    (hpattern : ∀ p, th.pattern = some p → p "" = true)
    (hmaxval : ∀ m, nh.max_value = some m → NumberFieldHandler.defaultInt nh ≤ m) :
    BooleanFieldHandler.validate_value BooleanFieldHandler.get_default_value field_id
        = Except.ok ()
    ∧ TextFieldHandler.validate_value th (TextFieldHandler.get_default_value th) field_id
        = Except.ok ()
    ∧ NumberFieldHandler.validate_value nh (NumberFieldHandler.get_default_value nh) field_id
        = Except.ok ()
    ∧ URLFieldHandler.validate_value URLFieldHandler.get_default_value field_id
        = Except.ok ()
    ∧ ImageFieldHandler.validate_value ImageFieldHandler.get_default_value field_id
        = Except.ok ()
    ∧ (∀ m, nh.min_value = some m → 0 < m →
        NumberFieldHandler.get_default_value nh = Value.int m)
    ∧ (∀ m, nh.min_value = some m → m ≤ 0 →
        NumberFieldHandler.get_default_value nh = Value.int 0)
    ∧ (nh.min_value = none → NumberFieldHandler.get_default_value nh = Value.int 0)
    ∧ BooleanFieldHandler.get_default_value = Value.bool false
    ∧ TextFieldHandler.get_default_value th = Value.str ""
    ∧ URLFieldHandler.get_default_value = Value.str ""
    ∧ ImageFieldHandler.get_default_value = Value.str "" := by
  have hcp : TextFieldHandler.checkPattern th (fieldRef field_id) "" = .ok () := by
    unfold TextFieldHandler.checkPattern
    cases hp : th.pattern with
    | none => rfl
    | some p => simp [hpattern p hp]
  have hcm : TextFieldHandler.checkMax th (fieldRef field_id) "" = .ok () := by
    unfold TextFieldHandler.checkMax
    cases hM : th.max_length with
    | none => exact hcp
    | some M =>
        dsimp only
        rw [if_neg]
        · exact hcp
        · have h0 := hmaxlen M hM
          have h1 : ((("" : String).length : Nat) : Int) = 0 := by decide
          omega
  have htext : TextFieldHandler.validate_value th (Value.str "") field_id = .ok () := by
    simp only [TextFieldHandler.validate_value, isStrInstance, Value.asStr]
    rw [if_neg (by decide)]
    cases hm : th.min_length with
    | none => exact hcm
    | some m =>
        dsimp only
        rw [if_neg]
        · exact hcm
        · have h0 := hminlen m hm
          have h1 : ((("" : String).length : Nat) : Int) = 0 := by decide
          omega
  have hncm : NumberFieldHandler.checkMax nh (fieldRef field_id)
      (NumberFieldHandler.defaultInt nh) = .ok () := by
    unfold NumberFieldHandler.checkMax
    cases hM : nh.max_value with
    | none => rfl
    | some M =>
        dsimp only
        rw [if_neg]
        have h0 := hmaxval M hM
        omega
  have hnum : NumberFieldHandler.validate_value nh
      (Value.int (NumberFieldHandler.defaultInt nh)) field_id = .ok () := by
    simp only [NumberFieldHandler.validate_value, isIntInstance, Value.asInt]
    rw [if_neg (by decide)]
    cases hm : nh.min_value with
    | none => exact hncm
    | some m =>
        dsimp only
        rw [if_neg]
        · exact hncm
        · have hd : NumberFieldHandler.defaultInt nh = if 0 < m then m else 0 := by
            unfold NumberFieldHandler.defaultInt
            rw [hm]
          rw [hd]
          split <;> omega
  have hurl : URLFieldHandler.validate_value (Value.str "") field_id = .ok () := by
    simp only [URLFieldHandler.validate_value, isStrInstance, Value.asStr]
    rw [if_neg (by decide), if_pos (by decide)]
  have himg : ImageFieldHandler.validate_value (Value.str "") field_id = .ok () := by
    simp only [ImageFieldHandler.validate_value, isStrInstance, Value.asStr]
    rw [if_neg (by decide), if_pos (by decide)]
  refine ⟨by simp [BooleanFieldHandler.validate_value, BooleanFieldHandler.get_default_value,
      isBoolInstance], htext, ?_, hurl, himg, ?_, ?_, ?_, rfl, rfl, rfl, rfl⟩
  · rw [NumberFieldHandler.get_default_eq_defaultInt]
    exact hnum
  · intro m hm h0
    unfold NumberFieldHandler.get_default_value
    rw [hm]
    dsimp only
    rw [if_pos h0]
  · intro m hm h0
    unfold NumberFieldHandler.get_default_value
    rw [hm]
    dsimp only
    rw [if_neg (by omega)]
  · intro hm
    unfold NumberFieldHandler.get_default_value
    rw [hm]

/-- Witness for the amended C9 theorem at the configuration the application
actually registers (deps.get_field_registry constructs every handler with no
constraints). -/
theorem defaults_valid_under_admissible_config_witness :
    BooleanFieldHandler.validate_value BooleanFieldHandler.get_default_value none
        = Except.ok ()
    ∧ TextFieldHandler.validate_value ⟨none, none, none⟩
        (TextFieldHandler.get_default_value ⟨none, none, none⟩) none = Except.ok ()
    ∧ NumberFieldHandler.validate_value ⟨none, none⟩
        (NumberFieldHandler.get_default_value ⟨none, none⟩) none = Except.ok ()
    ∧ URLFieldHandler.validate_value URLFieldHandler.get_default_value none
        = Except.ok ()
    ∧ ImageFieldHandler.validate_value ImageFieldHandler.get_default_value none
        = Except.ok ()
    ∧ (∀ m, (⟨none, none⟩ : NumberFieldHandler).min_value = some m → 0 < m →
        NumberFieldHandler.get_default_value ⟨none, none⟩ = Value.int m)
    ∧ (∀ m, (⟨none, none⟩ : NumberFieldHandler).min_value = some m → m ≤ 0 →
        NumberFieldHandler.get_default_value ⟨none, none⟩ = Value.int 0)
    ∧ ((⟨none, none⟩ : NumberFieldHandler).min_value = none →
        NumberFieldHandler.get_default_value ⟨none, none⟩ = Value.int 0)
    ∧ BooleanFieldHandler.get_default_value = Value.bool false
    ∧ TextFieldHandler.get_default_value ⟨none, none, none⟩ = Value.str ""
    ∧ URLFieldHandler.get_default_value = Value.str ""
    ∧ ImageFieldHandler.get_default_value = Value.str "" :=
  defaults_valid_under_admissible_config ⟨none, none, none⟩ ⟨none, none⟩ none
    (fun _ h => Option.noConfusion h) (fun _ h => Option.noConfusion h)
    (fun _ h => Option.noConfusion h) (fun _ h => Option.noConfusion h)

/-- Claim C10: the URL and Image handlers accept every string value whose
stripped form is empty — validate_value returns without error on any
all-whitespace string, even though such a string does not start with
http:// or https://. -/
theorem url_image_accept_blank_strings (s : String) (field_id : Option String)
    (h : pyStrip s = "") :
    URLFieldHandler.validate_value (Value.str s) field_id = Except.ok ()
    ∧ ImageFieldHandler.validate_value (Value.str s) field_id = Except.ok () := by
  constructor
  · simp only [URLFieldHandler.validate_value, isStrInstance, Value.asStr]
    rw [if_neg (by decide), if_pos h]
  · simp only [ImageFieldHandler.validate_value, isStrInstance, Value.asStr]
    rw [if_neg (by decide), if_pos h]

/-- Witness for C10 at the non-empty all-whitespace string consisting of one
space: it strips to empty, does not start with http:// or https://, and both
handlers accept it. -/
theorem url_image_accept_blank_strings_witness :
    pyStrip " " = ""
    ∧ (" " : String).length = 1
    ∧ (" " : String).startsWith "http://" = false
    ∧ (" " : String).startsWith "https://" = false
    ∧ URLFieldHandler.validate_value (Value.str " ") none = Except.ok ()
    ∧ ImageFieldHandler.validate_value (Value.str " ") none = Except.ok () :=
  ⟨by decide, by decide, by decide, by decide,
    (url_image_accept_blank_strings " " none (by decide)).1,
    (url_image_accept_blank_strings " " none (by decide)).2⟩

theorem validateItemLoop_ok_iff (reg : FieldHandlerRegistry) (l : PyList) :
    ∀ fvs : List (UUID × Value),
      ListRepository.validateItemLoop reg l fvs = Except.ok ()
      ↔ ∀ p ∈ fvs, ∃ f, dictGet l.fields p.1 = some f
          ∧ FieldHandlerRegistry.validate_value reg f p.2 (some (toString p.1))
              = Except.ok () := by
  intro fvs
  induction fvs with
  | nil => simp [ListRepository.validateItemLoop]
  | cons p rest ih =>
    simp only [ListRepository.validateItemLoop]
    cases hg : dictGet l.fields p.1 with
    | none => simp [hg]
    | some f =>
      cases hv : FieldHandlerRegistry.validate_value reg f p.2 (some (toString p.1)) with
      | error e => simp [hg, hv]
      | ok u => cases u; simp [hg, hv, ih]

theorem validateItemLoop_error_valueError (reg : FieldHandlerRegistry) (l : PyList) :
    ∀ (fvs : List (UUID × Value)) (e : PyErr),
      ListRepository.validateItemLoop reg l fvs = Except.error e →
      ∃ m, e = PyErr.valueError m := by
  intro fvs
  induction fvs with
  | nil => intro e h; exact Except.noConfusion h
  | cons p rest ih =>
    intro e h
    simp only [ListRepository.validateItemLoop] at h
    cases hg : dictGet l.fields p.1 with
    | none => rw [hg] at h; exact ⟨_, (Except.error.inj h).symm⟩
    | some f =>
      rw [hg] at h
      dsimp only at h
      cases hv : FieldHandlerRegistry.validate_value reg f p.2 (some (toString p.1)) with
      | error e2 =>
          rw [hv] at h
          obtain ⟨m, hm⟩ := registry_validate_error_valueError reg f p.2
            (some (toString p.1)) e2 hv
          exact ⟨m, by rw [← (Except.error.inj h), hm]⟩
      | ok u => cases u; rw [hv] at h; exact ih e h

theorem validate_field_values_error_cases (reg : FieldHandlerRegistry) (l : PyList)
    (fvs : List (UUID × Value)) (e : PyErr)
    (h : ListRepository.validate_field_values reg l fvs = Except.error e) :
    sameSet (dictKeys fvs) (dictKeys l.fields) = false
    ∨ ListRepository.validateItemLoop reg l fvs = Except.error e := by
  unfold ListRepository.validate_field_values at h
  split at h
  · left; assumption
  · right; exact h

theorem validate_field_values_error_valueError (reg : FieldHandlerRegistry) (l : PyList)
    (fvs : List (UUID × Value)) (e : PyErr)
    (h : ListRepository.validate_field_values reg l fvs = Except.error e) :
    ∃ m, e = PyErr.valueError m := by
  unfold ListRepository.validate_field_values at h
  split at h
  · exact ⟨_, (Except.error.inj h).symm⟩
  · exact validateItemLoop_error_valueError reg l fvs e h


theorem validate_field_values_ok_parts (reg : FieldHandlerRegistry) (l : PyList)
    (fvs : List (UUID × Value))
    (h : ListRepository.validate_field_values reg l fvs = Except.ok ()) :
    sameSet (dictKeys fvs) (dictKeys l.fields) = true
    ∧ ListRepository.validateItemLoop reg l fvs = Except.ok () := by
  unfold ListRepository.validate_field_values at h
  split at h
  · exact Except.noConfusion h
  · constructor
    · rename_i hcond
      simp at hcond
      exact hcond
    · exact h

/-- Claim C6: on an existing list, add_item raises a ValidationError (a
ValueError) exactly when the supplied values do not cover precisely the
list's field-id set or some supplied value fails its field's handler
validation; and whenever add_item raises, the in-memory store is unchanged
and no document is written to disk. -/
theorem add_item_validation_characterization
    (reg : FieldHandlerRegistry) (store : List (UUID × PyList)) (list_id : UUID)
    (l : PyList) (field_values : List (UUID × Value)) (fresh_item_id : UUID)
    (hl : dictGet store list_id = some l) :
    ((∃ m, (ListRepository.add_item reg store list_id field_values fresh_item_id).res
        = Except.error (PyErr.valueError m))
      ↔ (sameSet (dictKeys field_values) (dictKeys l.fields) = false
          ∨ ∃ p ∈ field_values, ∃ f, dictGet l.fields p.1 = some f
              ∧ FieldHandlerRegistry.validate_value reg f p.2 (some (toString p.1))
                  ≠ Except.ok ()))
    ∧ (∀ e, (ListRepository.add_item reg store list_id field_values fresh_item_id).res
          = Except.error e →
        (ListRepository.add_item reg store list_id field_values fresh_item_id).store = store
        ∧ (ListRepository.add_item reg store list_id field_values fresh_item_id).writes
            = []) := by
  cases hv : ListRepository.validate_field_values reg l field_values with
  | error e =>
      have hout : ListRepository.add_item reg store list_id field_values fresh_item_id
          = ⟨Except.error e, store, []⟩ := by
        unfold ListRepository.add_item
        rw [hl]
        dsimp only
        rw [hv]
      rw [hout]
      refine ⟨⟨fun _ => ?_, fun _ => ?_⟩, fun e2 _ => ⟨rfl, rfl⟩⟩
      · by_cases hb : sameSet (dictKeys field_values) (dictKeys l.fields) = false
        · exact Or.inl hb
        · have hbt : sameSet (dictKeys field_values) (dictKeys l.fields) = true := by
            simp at hb
            exact hb
          right
          have hloop : ListRepository.validateItemLoop reg l field_values
              = Except.error e := by
            unfold ListRepository.validate_field_values at hv
            rw [if_neg hb] at hv
            exact hv
          have hnotok : ¬ (ListRepository.validateItemLoop reg l field_values
              = Except.ok ()) := by
            rw [hloop]
            exact fun hcon => Except.noConfusion hcon
          rw [validateItemLoop_ok_iff reg l field_values] at hnotok
          push_neg at hnotok
          obtain ⟨p, hp, hpfail⟩ := hnotok
          cases hg : dictGet l.fields p.1 with
          | none =>
              exfalso
              have hkeys : p.1 ∈ dictKeys field_values := List.mem_map.mpr ⟨p, hp, rfl⟩
              obtain ⟨f, hf⟩ := exists_dictGet_of_mem_keys l.fields p.1
                (sameSet_mem (dictKeys field_values) (dictKeys l.fields) hbt hkeys)
              rw [hg] at hf
              exact Option.noConfusion hf
          | some f => exact ⟨p, hp, f, hg, hpfail f hg⟩
      · obtain ⟨m, hm⟩ := validate_field_values_error_valueError reg l field_values e hv
        exact ⟨m, by rw [hm]⟩
  | ok u =>
      cases u
      have hres : ∃ l2, (ListRepository.add_item reg store list_id field_values
          fresh_item_id).res = Except.ok (some l2) := by
        unfold ListRepository.add_item
        rw [hl]
        dsimp only
        rw [hv]
        exact ⟨_, rfl⟩
      obtain ⟨l2, hl2⟩ := hres
      obtain ⟨hsame, hloop⟩ := validate_field_values_ok_parts reg l field_values hv
      refine ⟨⟨fun hex => ?_, fun hrhs => ?_⟩, fun e2 he2 => ?_⟩
      · obtain ⟨m, hm⟩ := hex
        rw [hl2] at hm
        exact Except.noConfusion hm
      · exfalso
        rcases hrhs with hc | ⟨p, hp, f, hf, hne⟩
        · rw [hsame] at hc
          exact Bool.noConfusion hc
        · obtain ⟨f2, hf2, hval⟩ := (validateItemLoop_ok_iff reg l field_values).mp
            hloop p hp
          rw [hf] at hf2
          exact hne ((Option.some.inj hf2) ▸ hval)
      · rw [hl2] at he2
        exact Except.noConfusion he2

/-- Witness for C6: the registry of deps.get_field_registry, a store holding
one list with one boolean field, and an empty value mapping (a missing field
value).  The hypothesis "the list exists" holds and the characterization
applies. -/
theorem add_item_validation_characterization_witness :
    dictGet [((0 : UUID), (⟨0, "L", [(1, FieldT.boolean "Done")], []⟩ : PyList))] 0
        = some (⟨0, "L", [(1, FieldT.boolean "Done")], []⟩ : PyList)
    ∧ (((∃ m, (ListRepository.add_item ⟨⟨none, none, none⟩, ⟨none, none⟩⟩
            [((0 : UUID), (⟨0, "L", [(1, FieldT.boolean "Done")], []⟩ : PyList))] 0 [] 7).res
          = Except.error (PyErr.valueError m))
        ↔ (sameSet (dictKeys ([] : List (UUID × Value)))
              (dictKeys [((1 : UUID), FieldT.boolean "Done")]) = false
            ∨ ∃ p ∈ ([] : List (UUID × Value)), ∃ f,
                dictGet [((1 : UUID), FieldT.boolean "Done")] p.1 = some f
                ∧ FieldHandlerRegistry.validate_value ⟨⟨none, none, none⟩, ⟨none, none⟩⟩
                    f p.2 (some (toString p.1)) ≠ Except.ok ()))
      ∧ (∀ e, (ListRepository.add_item ⟨⟨none, none, none⟩, ⟨none, none⟩⟩
            [((0 : UUID), (⟨0, "L", [(1, FieldT.boolean "Done")], []⟩ : PyList))] 0 [] 7).res
              = Except.error e →
          (ListRepository.add_item ⟨⟨none, none, none⟩, ⟨none, none⟩⟩
            [((0 : UUID), (⟨0, "L", [(1, FieldT.boolean "Done")], []⟩ : PyList))] 0 [] 7).store
              = [((0 : UUID), (⟨0, "L", [(1, FieldT.boolean "Done")], []⟩ : PyList))]
          ∧ (ListRepository.add_item ⟨⟨none, none, none⟩, ⟨none, none⟩⟩
            [((0 : UUID), (⟨0, "L", [(1, FieldT.boolean "Done")], []⟩ : PyList))] 0 [] 7).writes
              = [])) :=
  ⟨by decide,
    add_item_validation_characterization ⟨⟨none, none, none⟩, ⟨none, none⟩⟩
      [((0 : UUID), (⟨0, "L", [(1, FieldT.boolean "Done")], []⟩ : PyList))] 0
      (⟨0, "L", [(1, FieldT.boolean "Done")], []⟩ : PyList) [] 7 (by decide)⟩

theorem mem_intRangeGo : ∀ (n : Nat) (lo i : Int),
    i ∈ intRangeGo n lo ↔ lo ≤ i ∧ i < lo + n := by
  intro n
  induction n with
  | zero =>
      intro lo i
      simp [intRangeGo]
  | succ n ih =>
      intro lo i
      simp [intRangeGo, ih]
      omega

theorem pyListGet_ok_lt {α : Type} (xs : List α) (i : Int) (a : α)
    (h : pyListGet xs i = Except.ok a) (hi : 0 ≤ i) : i < (xs.length : Int) := by
  simp only [pyListGet] at h
  split at h
  · omega
  · split at h
    · rename_i hcond
      exact hcond.2
    · exact Except.noConfusion h

theorem runLoop_go_spec {σ : Type} (migs : List (σ → Except PyErr σ)) :
    ∀ (n : Nat) (c : Int) (st : σ),
      (DataMigrator.runLoop migs (intRangeGo n (c + 1)) c st).trace
          = intRangeGo (DataMigrator.runLoop migs (intRangeGo n (c + 1)) c st).trace.length
              (c + 1)
      ∧ (DataMigrator.runLoop migs (intRangeGo n (c + 1)) c st).cursor
          = c + ((DataMigrator.runLoop migs (intRangeGo n (c + 1)) c st).trace.length : Int)
      ∧ ((DataMigrator.runLoop migs (intRangeGo n (c + 1)) c st).res = Except.ok ()
          → (DataMigrator.runLoop migs (intRangeGo n (c + 1)) c st).trace.length = n)
      ∧ (∀ e, (DataMigrator.runLoop migs (intRangeGo n (c + 1)) c st).res = Except.error e
          → stepApply migs ((DataMigrator.runLoop migs (intRangeGo n (c + 1)) c st).cursor + 1)
              (DataMigrator.runLoop migs (intRangeGo n (c + 1)) c st).store = Except.error e)
      ∧ (∀ i ∈ (DataMigrator.runLoop migs (intRangeGo n (c + 1)) c st).trace,
          0 ≤ i → i < (migs.length : Int)) := by
  intro n
  induction n with
  | zero =>
      intro c st
      refine ⟨rfl, by simp [intRangeGo, DataMigrator.runLoop], fun _ => rfl,
        fun e he => Except.noConfusion he,
        by simp [intRangeGo, DataMigrator.runLoop]⟩
  | succ n ih =>
      intro c st
      simp only [intRangeGo, DataMigrator.runLoop]
      cases hs : stepApply migs (c + 1) st with
      | error e =>
          dsimp only
          refine ⟨rfl, by simp, fun hok => Except.noConfusion hok, fun e2 he2 => ?_, by simp⟩
          rw [← (Except.error.inj he2)]
          exact hs
      | ok st2 =>
          dsimp only
          obtain ⟨ih1, ih2, ih3, ih4, ih5⟩ := ih (c + 1) st2
          refine ⟨?_, ?_, ?_, ?_, ?_⟩
          · show (c + 1) :: (DataMigrator.runLoop migs (intRangeGo n (c + 1 + 1)) (c + 1)
                st2).trace = _
            rw [List.length_cons]
            show _ = (c + 1) :: intRangeGo (DataMigrator.runLoop migs
                (intRangeGo n (c + 1 + 1)) (c + 1) st2).trace.length (c + 1 + 1)
            rw [← ih1]
          · show (DataMigrator.runLoop migs (intRangeGo n (c + 1 + 1)) (c + 1) st2).cursor
              = c + (((c + 1) :: (DataMigrator.runLoop migs (intRangeGo n (c + 1 + 1)) (c + 1)
                  st2).trace).length : Int)
            rw [ih2, List.length_cons]
            push_cast
            ring
          · intro hok
            rw [List.length_cons, ih3 hok]
          · intro e2 he2
            exact ih4 e2 he2
          · intro i hi hpos
            rcases List.mem_cons.mp hi with hhead | htail
            · subst hhead
              obtain ⟨f, hf⟩ : ∃ f, pyListGet migs (c + 1) = Except.ok f := by
                unfold stepApply at hs
                cases hpg : pyListGet migs (c + 1) with
                | error e3 => rw [hpg] at hs; exact Except.noConfusion hs
                | ok f => exact ⟨f, rfl⟩
              exact pyListGet_ok_lt migs (c + 1) f hf hpos
            · exact ih5 i htail hpos

theorem intRange_add_nat (lo : Int) (k : Nat) :
    intRange lo (lo + (k : Int)) = intRangeGo k lo := by
  unfold intRange
  congr 1
  omega

/-- Claim C7: starting from a persisted cursor (−1 by default, otherwise a
previously saved step index), DataMigrator.run attempts exactly the steps
whose index is greater than the cursor, in ascending order; after every
completed step the cursor persisted by _save_migration_state equals that
step's index (so it is saved before the next step starts); on success every
pending step was executed; and when run raises, the raised error is exactly
what the step at index cursor+1 produced on the store as the failing step
saw it — the cursor was not advanced for that step. -/
theorem migrator_run_executes_pending {σ : Type} (migs : List (σ → Except PyErr σ))
    (last_migration : Int) (st : σ) (h : -1 ≤ last_migration) :
    (DataMigrator.run migs last_migration st).trace
        = intRange (last_migration + 1)
            (last_migration + 1 + ((DataMigrator.run migs last_migration st).trace.length : Int))
    ∧ (DataMigrator.run migs last_migration st).cursor
        = last_migration + ((DataMigrator.run migs last_migration st).trace.length : Int)
    ∧ ((DataMigrator.run migs last_migration st).res = Except.ok ()
        → (DataMigrator.run migs last_migration st).trace
            = intRange (last_migration + 1) (migs.length : Int))
    ∧ (∀ e, (DataMigrator.run migs last_migration st).res = Except.error e
        → stepApply migs ((DataMigrator.run migs last_migration st).cursor + 1)
            (DataMigrator.run migs last_migration st).store = Except.error e)
    ∧ (∀ i ∈ (DataMigrator.run migs last_migration st).trace,
        last_migration < i ∧ i < (migs.length : Int)) := by
  have hrun : DataMigrator.run migs last_migration st
      = DataMigrator.runLoop migs
          (intRangeGo ((migs.length : Int) - (last_migration + 1)).toNat
            (last_migration + 1)) last_migration st := rfl
  obtain ⟨g1, g2, g3, g4, g5⟩ := runLoop_go_spec migs
    ((migs.length : Int) - (last_migration + 1)).toNat last_migration st
  rw [hrun]
  refine ⟨?_, g2, ?_, g4, ?_⟩
  · rw [intRange_add_nat]
    exact g1
  · intro hok
    calc (DataMigrator.runLoop migs
          (intRangeGo ((migs.length : Int) - (last_migration + 1)).toNat
            (last_migration + 1)) last_migration st).trace
        = intRangeGo (DataMigrator.runLoop migs
            (intRangeGo ((migs.length : Int) - (last_migration + 1)).toNat
              (last_migration + 1)) last_migration st).trace.length
            (last_migration + 1) := g1
      _ = intRangeGo ((migs.length : Int) - (last_migration + 1)).toNat
            (last_migration + 1) := by rw [g3 hok]
      _ = intRange (last_migration + 1) (migs.length : Int) := rfl
  · intro i hi
    have hmem : i ∈ intRangeGo (DataMigrator.runLoop migs
        (intRangeGo ((migs.length : Int) - (last_migration + 1)).toNat
          (last_migration + 1)) last_migration st).trace.length (last_migration + 1) := by
      rw [← g1]
      exact hi
    obtain ⟨h1, _⟩ := (mem_intRangeGo _ _ i).mp hmem
    refine ⟨by omega, ?_⟩
    exact g5 i hi (by omega)

/-- Two demonstration migration steps over a store modelled as a counter:
the first succeeds, the second fails. -/
def demoMigrations : List (Nat → Except PyErr Nat) :=
  [fun n => Except.ok (n + 1), fun _ => Except.error (PyErr.valueError "boom")]

/-- Witness for C7 at the default cursor −1: step 0 runs and saves cursor 0,
step 1 fails, the error propagates and the cursor stays at 0. -/
theorem migrator_run_executes_pending_witness :
    (DataMigrator.run demoMigrations (-1) 0).trace
        = intRange ((-1) + 1)
            ((-1) + 1 + (((DataMigrator.run demoMigrations (-1) 0).trace.length : Nat) : Int))
    ∧ (DataMigrator.run demoMigrations (-1) 0).cursor
        = (-1) + (((DataMigrator.run demoMigrations (-1) 0).trace.length : Nat) : Int)
    ∧ ((DataMigrator.run demoMigrations (-1) 0).res = Except.ok ()
        → (DataMigrator.run demoMigrations (-1) 0).trace
            = intRange ((-1) + 1) (demoMigrations.length : Int))
    ∧ (∀ e, (DataMigrator.run demoMigrations (-1) 0).res = Except.error e
        → stepApply demoMigrations ((DataMigrator.run demoMigrations (-1) 0).cursor + 1)
            (DataMigrator.run demoMigrations (-1) 0).store = Except.error e)
    ∧ (∀ i ∈ (DataMigrator.run demoMigrations (-1) 0).trace,
        (-1 : Int) < i ∧ i < (demoMigrations.length : Int)) :=
  migrator_run_executes_pending demoMigrations (-1) 0 (by decide)

/-- Claim C1 (code bug): add_field never returns an updated list — for every
store, list, creation request and fresh identifier it either reports
not-found or raises, because FieldType declares no order attribute; so no
successful add_field completion exists for the claimed invariant to hold
after.  (delete_field does preserve the invariant; see
delete_field_preserves_item_consistency.) -/
theorem add_field_never_returns_updated_list :
    ∀ (store : List (UUID × PyList)) (list_id : UUID) (fc : FieldCreate) (fid : UUID),
      opSucceeded (ListRepository.add_field store list_id fc fid) = false := by
  intro store list_id fc fid
  unfold ListRepository.add_field
  cases hl : dictGet store list_id with
  | none => rfl
  | some l =>
    dsimp only
    cases hf : l.fields with
    | nil => rfl
    | cons p rest => rfl

/-- Claim C2 (code bug): add_field on an existing empty list raises the
pydantic ValueError at `field.order = next_order` instead of inserting the
field; the store is unchanged and nothing is written. -/
theorem add_field_raises_value_error_concrete :
    ListRepository.add_field [((0 : UUID), (⟨0, "Groceries", [], []⟩ : PyList))] 0
        (FieldCreate.boolean "Purchased") 9
      = ⟨Except.error (PyErr.valueError "\"BooleanFieldType\" object has no field \"order\""),
          [((0 : UUID), (⟨0, "Groceries", [], []⟩ : PyList))], []⟩ := by decide

/-- Claim C3 (code bug): a field document carrying the order key written by
migration 0 validates into a field model that has no order at all, and
dumping that model emits no order key — the order value cannot survive a
load/write round trip because FieldType declares no order attribute. -/
theorem field_order_dropped_by_round_trip :
    FieldT.model_validate ⟨"A", "boolean", none, some 1⟩ = some (FieldT.boolean "A")
    ∧ FieldT.model_dump (FieldT.boolean "A") = ⟨"A", "boolean", none, none⟩
    ∧ (FieldT.model_dump (FieldT.boolean "A")).order = none
    ∧ (⟨"A", "boolean", none, some 1⟩ : RawFieldDoc).order = some 1 := by decide

/-- Claim C4 (code bug): neither reorder_fields nor move_field ever returns
an updated list — reorder_fields raises TypeError at the shadowed `list(...)`
call whenever its key-set check passes (the not-found and key-set-mismatch
outcomes are the only others), and move_field either reports not-found or
raises (invalid direction, or AttributeError reading the undeclared order
attribute inside sorted()).  So no successful call exists after which the
claimed permutation of the orders could be checked. -/
theorem field_order_ops_never_succeed :
    ∀ (store : List (UUID × PyList)) (list_id : UUID) (field_orders : List (UUID × Int))
      (field_id : UUID) (direction : String),
      opSucceeded (ListRepository.reorder_fields store list_id field_orders) = false
      ∧ opSucceeded (ListRepository.move_field store list_id field_id direction) = false := by
  intro store list_id field_orders field_id direction
  constructor
  · unfold ListRepository.reorder_fields
    cases hl : dictGet store list_id with
    | none => rfl
    | some l =>
        dsimp only
        by_cases hs : sameSet (dictKeys field_orders) (dictKeys l.fields) = false
        · rw [if_pos hs]
          rfl
        · rw [if_neg hs]
          rfl
  · unfold ListRepository.move_field
    by_cases hd : (direction == "up" || direction == "down") = false
    · rw [if_pos hd]
      rfl
    · rw [if_neg hd]
      cases hl : dictGet store list_id with
      | none => rfl
      | some l =>
          dsimp only
          by_cases hc : dictContains l.fields field_id = false
          · rw [if_pos hc]
            rfl
          · rw [if_neg hc]
            cases hf : l.fields with
            | nil => rfl
            | cons p rest => rfl

/-- Claim C5 (code bug): on an existing list, a mapping that covers exactly
the field-id set raises TypeError at `orders = list(field_orders.values())`
— the local `list` is the pydantic List instance — whether its order values
are duplicate-free (the claim says this must succeed) or duplicated (the
claim says this must raise a ValidationError); nothing is written either
way.  The key-set-mismatch ValueError is the one reachable ValidationError. -/
theorem reorder_fields_error_behaviour_concrete :
    sameSet (dictKeys [((1 : UUID), (0 : Int))])
        (dictKeys [((1 : UUID), FieldT.boolean "A")]) = true
    ∧ hasDuplicates ([((1 : UUID), (0 : Int))].map (fun p => p.2)) = false
    ∧ ListRepository.reorder_fields
        [((0 : UUID), (⟨0, "L", [(1, FieldT.boolean "A")], []⟩ : PyList))] 0 [(1, 0)]
      = ⟨Except.error (PyErr.typeError "List object is not callable"),
          [((0 : UUID), (⟨0, "L", [(1, FieldT.boolean "A")], []⟩ : PyList))], []⟩
    ∧ hasDuplicates ([((1 : UUID), (3 : Int)), ((2 : UUID), (3 : Int))].map (fun p => p.2))
        = true
    ∧ ListRepository.reorder_fields
        [((0 : UUID),
          (⟨0, "M", [(1, FieldT.boolean "A"), (2, FieldT.boolean "B")], []⟩ : PyList))]
        0 [(1, 3), (2, 3)]
      = ⟨Except.error (PyErr.typeError "List object is not callable"),
          [((0 : UUID),
            (⟨0, "M", [(1, FieldT.boolean "A"), (2, FieldT.boolean "B")], []⟩ : PyList))], []⟩
    ∧ ListRepository.reorder_fields
        [((0 : UUID), (⟨0, "L", [(1, FieldT.boolean "A")], []⟩ : PyList))] 0 []
      = ⟨Except.error (PyErr.valueError "Must provide orders for all fields"),
          [((0 : UUID), (⟨0, "L", [(1, FieldT.boolean "A")], []⟩ : PyList))], []⟩ := by
  decide

/-- Claim C8 (code bug): move_field "up" on the field already first in order
raises AttributeError (from the sorted() key reading the undeclared order
attribute), not the claimed ValidationError; in both this and the
invalid-direction case nothing is written and the store, and with it every
field order, is unchanged.  An invalid direction does raise ValueError (the
source message quotes the words up and down). -/
theorem move_field_error_behaviour_concrete :
    ListRepository.move_field
        [((0 : UUID), (⟨0, "L", [(1, FieldT.boolean "A")], []⟩ : PyList))] 0 1 "up"
      = ⟨Except.error (PyErr.attributeError "BooleanFieldType object has no attribute order"),
          [((0 : UUID), (⟨0, "L", [(1, FieldT.boolean "A")], []⟩ : PyList))], []⟩
    ∧ ListRepository.move_field
        [((0 : UUID), (⟨0, "L", [(1, FieldT.boolean "A")], []⟩ : PyList))] 0 1 "sideways"
      = ⟨Except.error (PyErr.valueError "Direction must be up or down"),
          [((0 : UUID), (⟨0, "L", [(1, FieldT.boolean "A")], []⟩ : PyList))], []⟩ := by decide

theorem sameSet_eq_true_iff (a b : List UUID) :
    sameSet a b = true ↔ ((∀ x ∈ a, x ∈ b) ∧ (∀ x ∈ b, x ∈ a)) := by
  unfold sameSet
  rw [Bool.and_eq_true, List.all_eq_true, List.all_eq_true]
  constructor
  · rintro ⟨h1, h2⟩
    exact ⟨fun x hx => List.elem_iff.mp (h1 x hx), fun x hx => List.elem_iff.mp (h2 x hx)⟩
  · rintro ⟨h1, h2⟩
    exact ⟨fun x hx => List.elem_iff.mpr (h1 x hx), fun x hx => List.elem_iff.mpr (h2 x hx)⟩

theorem mem_dictKeys_dictDel {α : Type} (d : List (UUID × α)) (k x : UUID) :
    x ∈ dictKeys (dictDel d k) ↔ x ∈ dictKeys d ∧ x ≠ k := by
  unfold dictKeys dictDel
  simp only [List.mem_map, List.mem_filter, Bool.not_eq_eq_eq_not, Bool.not_true,
    beq_eq_false_iff_ne]
  constructor
  · rintro ⟨p, ⟨hp, hne⟩, rfl⟩
    exact ⟨⟨p, hp, rfl⟩, hne⟩
  · rintro ⟨⟨p, hp, rfl⟩, hne⟩
    exact ⟨p, ⟨hp, hne⟩, rfl⟩

theorem mem_map_filter_field_id (vs : List FieldValue) (k x : UUID) :
    x ∈ (vs.filter (fun fv => !(fv.field_id == k))).map FieldValue.field_id
    ↔ x ∈ vs.map FieldValue.field_id ∧ x ≠ k := by
  simp only [List.mem_map, List.mem_filter, Bool.not_eq_eq_eq_not, Bool.not_true,
    beq_eq_false_iff_ne]
  constructor
  · rintro ⟨fv, ⟨hfv, hne⟩, rfl⟩
    exact ⟨⟨fv, hfv, rfl⟩, hne⟩
  · rintro ⟨⟨fv, hfv, rfl⟩, hne⟩
    exact ⟨fv, ⟨hfv, hne⟩, rfl⟩

/-- delete_field preserves the item/field-set invariant: if every item's
value field-id set equals the list's field-id set before a successful
delete_field, the same holds afterwards (the field leaves `fields` and its
FieldValue leaves every item). -/
theorem delete_field_preserves_item_consistency
    (store : List (UUID × PyList)) (list_id field_id : UUID) (l l2 : PyList)
    (hl : dictGet store list_id = some l)
    (hres : (ListRepository.delete_field store list_id field_id).res = Except.ok (some l2))
    (hinv : ∀ p ∈ l.items, sameSet (p.2.map FieldValue.field_id) (dictKeys l.fields) = true) :
    ∀ p ∈ l2.items, sameSet (p.2.map FieldValue.field_id) (dictKeys l2.fields) = true := by
  unfold ListRepository.delete_field at hres
  rw [hl] at hres
  dsimp only at hres
  by_cases hc : dictContains l.fields field_id = false
  · rw [if_pos hc] at hres
    exact Option.noConfusion (Except.ok.inj hres)
  · rw [if_neg hc] at hres
    have hl2 : l2 = { l with
        fields := dictDel l.fields field_id,
        items := l.items.map
          (fun it => (it.1, it.2.filter (fun fv => !(fv.field_id == field_id)))) } :=
      (Option.some.inj (Except.ok.inj hres)).symm
    rw [hl2]
    intro p hp
    obtain ⟨q, hq, hpq⟩ := List.mem_map.mp hp
    have base := (sameSet_eq_true_iff _ _).mp (hinv q hq)
    rw [sameSet_eq_true_iff]
    rw [← hpq]
    constructor
    · intro x hx
      obtain ⟨hxv, hxk⟩ := (mem_map_filter_field_id q.2 field_id x).mp hx
      exact (mem_dictKeys_dictDel l.fields field_id x).mpr ⟨base.1 x hxv, hxk⟩
    · intro x hx
      obtain ⟨hxf, hxk⟩ := (mem_dictKeys_dictDel l.fields field_id x).mp hx
      exact (mem_map_filter_field_id q.2 field_id x).mpr ⟨base.2 x hxf, hxk⟩
